import Mathlib

/-!
Verification of the SatelM customer-and-service registry (src/app.py).

The repository exposes four request handlers over a relational store:
`add_customer`, `get_customer`, `create_service`, `get_customer_services`.
We embed the store as explicit state (lists of rows plus the autoincrement
counters of the two tables) and each handler as a pure function from the
state and its text arguments to a result and a new state.  A handler that
raises a Python exception is modelled as returning `none` for its result
string; in that case the session is abandoned without a commit, so the
state component is unchanged.
-/

namespace SatelM

/-- A calendar date as produced by Python `datetime.date`: year, month, day. -/
structure Date where
  year : Nat
  month : Nat
  day : Nat
deriving DecidableEq, Repr

/-- A row of the `customers` table (class `Customer` in src/app.py). -/
structure Customer where
  id : Nat
  name : String
  family : String
  father_name : String
  national_id : String
  shenasname_id : String
  birth_date : Date
  address : String
  services_count : Nat
deriving DecidableEq, Repr

/-- A row of the `services` table (class `Service` in src/app.py). -/
structure Service where
  id : Nat
  name : String
  phone_number : String
  customer_id : Nat
deriving DecidableEq, Repr

/-- The relational store: the two tables together with the next
autoincrement primary key of each (SQLite assigns 1, 2, 3, ...). -/
structure Store where
  customers : List Customer
  services : List Service
  nextCustomerId : Nat
  nextServiceId : Nat
deriving DecidableEq, Repr

/-- The store right after `Base.metadata.create_all`: both tables empty,
first assigned primary key 1 in each. -/
def emptyStore : Store := ⟨[], [], 1, 1⟩

/-- Gregorian leap-year rule used by Python `datetime.date`. -/
def isLeap (y : Nat) : Bool :=
  (y % 4 == 0 && y % 100 != 0) || (y % 400 == 0)

/-- Number of days of month `m` of year `y` (Python `calendar` rule,
used by the `datetime.date` constructor to validate the day). -/
def daysInMonth (y m : Nat) : Nat :=
  if m = 2 then (if isLeap y then 29 else 28)
  else if m = 4 ∨ m = 6 ∨ m = 9 ∨ m = 11 then 30
  else 31

/-- Decimal value of a list of digit characters. -/
def digitsVal (cs : List Char) : Nat :=
  cs.foldl (fun a c => a * 10 + (c.toNat - 48)) 0

/-- Split a character list into the groups separated by the dash
character, in order, keeping empty groups (the behaviour of splitting a
string on a one-character separator). -/
def splitDash : List Char → List (List Char)
  | [] => [[]]
  | c :: rest =>
    match splitDash rest with
    | [] => [[]]
    | g :: gs => if c = '-' then [] :: g :: gs else (c :: g) :: gs

/-- Model of `datetime.strptime(s, date_format).date()` for the fixed four-digit
year dash month dash day format of src/app.py line 82.  CPython matches
the year against exactly four digits, the month against one or two digits
with value 1..12, the day against one or two digits with value 1..31,
requires the whole string to be consumed, and then the `date` constructor
additionally checks the day against the month length and the year against
MINYEAR = 1.  Any failure raises `ValueError`, modelled as `none`. -/
def parseDate (s : String) : Option Date :=
  match splitDash s.toList with
  | [ys, ms, ds] =>
    if ys.length = 4 && ys.all Char.isDigit
        && decide (1 ≤ ms.length) && decide (ms.length ≤ 2) && ms.all Char.isDigit
        && decide (1 ≤ ds.length) && decide (ds.length ≤ 2) && ds.all Char.isDigit then
      let y := digitsVal ys
      let m := digitsVal ms
      let d := digitsVal ds
      if 1 ≤ y ∧ 1 ≤ m ∧ m ≤ 12 ∧ 1 ≤ d ∧ d ≤ daysInMonth y m then
        some ⟨y, m, d⟩
      else none
    else none
  | _ => none

/-- Line 84 of src/app.py:
`age = today.year - birth_date.year - ((today.month, today.day) < (birth_date.month, birth_date.day))`,
with Python's lexicographic tuple comparison and booleans coerced to 0/1. -/
def computeAge (today birth : Date) : Int :=
  (today.year : Int) - (birth.year : Int) -
    (if today.month < birth.month ∨ (today.month = birth.month ∧ today.day < birth.day)
     then 1 else 0)

/-- SQLite text-to-integer conversion applied when the integer primary
key column is compared with the bound text parameter: a nonempty all-digit
numeral converts to its value, anything else converts to no integer and
matches no row (the table assigns only positive integer keys). -/
def idOfText (s : String) : Option Nat :=
  if s.toList ≠ [] ∧ s.toList.all Char.isDigit then some (digitsVal s.toList) else none

/-- Model of `session.query(Customer).filter_by(id=customer_id).first()`: the first
row, in rowid order, whose primary key equals the converted text id. -/
def lookupCustomer (st : Store) (customer_id : String) : Option Customer :=
  match idOfText customer_id with
  | none => none
  | some k => st.customers.find? (fun c => c.id == k)

/-- Result string of the age validation failure in `add_customer`. -/
def ageMsg : String := "Age must be 18 or older to register as a customer."

/-- Result string of the not-found paths of the three id-taking handlers. -/
def notFoundMsg : String := "Customer not found."

/-- Result string of the services-per-customer limit in `create_service`. -/
def maxMsg : String := "Maximum number of services reached for this customer."

/-- Handler `add_customer` (src/app.py lines 66-95).  Parses the birth
date (an unparsable date raises, modelled as result `none`), computes the
age against `today` (`datetime.now().date()` passed explicitly here),
rejects ages below 18, and otherwise inserts a Customer row whose
`services_count` starts at the column default 0 and commits. -/
def add_customer (st : Store) (today : Date)
    (name family father_name national_id shenasname_id birth_date address : String) :
    Option String × Store :=
  match parseDate birth_date with
  | none => (none, st)
  | some bd =>
    if computeAge today bd < 18 then
      (some ageMsg, st)
    else
      let c : Customer :=
        ⟨st.nextCustomerId, name, family, father_name, national_id, shenasname_id, bd, address, 0⟩
      (some "Customer added successfully.",
        { st with customers := st.customers ++ [c],
                  nextCustomerId := st.nextCustomerId + 1 })

/-- Zero-padded two-digit decimal rendering. -/
def pad2 (n : Nat) : String :=
  if n < 10 then "0" ++ toString n else toString n

/-- Zero-padded four-digit decimal rendering. -/
def pad4 (n : Nat) : String :=
  if n < 10 then "000" ++ toString n
  else if n < 100 then "00" ++ toString n
  else if n < 1000 then "0" ++ toString n
  else toString n

/-- Python `str(date)`: ISO rendering with four-digit year and two-digit
month and day. -/
def dateStr (d : Date) : String :=
  pad4 d.year ++ "-" ++ pad2 d.month ++ "-" ++ pad2 d.day

/-- The formatted block built by `get_customer` for a found row
(src/app.py lines 108-114). -/
def customerBlock (c : Customer) : String :=
  "\n" ++ "id: " ++ toString c.id ++ "\nName: " ++ c.name ++ "\nfamily: " ++ c.family
    ++ "\nfather_name: " ++ c.father_name ++ "\nnational_id: " ++ c.national_id
    ++ "\nshenasname_id: " ++ c.shenasname_id ++ "\nbirth_date: " ++ dateStr c.birth_date
    ++ "\nAddress: " ++ c.address ++ "\n\n"

/-- Handler `get_customer` (src/app.py lines 97-118): looks the id up and
returns the formatted block, or the not-found message.  It never mutates
the store. -/
def get_customer (st : Store) (customer_id : String) : Option String × Store :=
  match lookupCustomer st customer_id with
  | some c => (some (customerBlock c), st)
  | none => (some notFoundMsg, st)

/-- The write-back of `customer.services_count += 1` through the ORM: the row
whose primary key is `k` gets its counter incremented, other rows are
untouched. -/
def bumpCount (k : Nat) (c : Customer) : Customer :=
  if c.id = k then { c with services_count := c.services_count + 1 } else c

/-- Handler `create_service` (src/app.py lines 120-153): first the
existence check, then the limit check, then insertion of the Service row,
increment of the owning customer's counter, and a single commit of both. -/
def create_service (st : Store) (customer_id phone_number service_name : String) :
    Option String × Store :=
  match lookupCustomer st customer_id with
  | none => (some notFoundMsg, st)
  | some c =>
    if c.services_count ≥ 10 then
      (some maxMsg, st)
    else
      let sv : Service := ⟨st.nextServiceId, service_name, phone_number, c.id⟩
      (some "Service created successfully.",
        { st with
            services := st.services ++ [sv],
            customers := st.customers.map (bumpCount c.id),
            nextServiceId := st.nextServiceId + 1 })

/-- One service block of the `get_customer_services` listing
(src/app.py lines 171-173). -/
def serviceBlock (sv : Service) : String :=
  "Service ID: " ++ toString sv.id ++ "\nName: " ++ sv.name
    ++ "\nPhone Number: " ++ sv.phone_number ++ "\n\n"

/-- The full listing built by `get_customer_services` for a found
customer: summary header followed by one block per associated service,
in insertion order (the `services` relationship). -/
def servicesListing (st : Store) (c : Customer) : String :=
  "\n" ++ "Customer ID: " ++ toString c.id ++ "\nName: " ++ c.name
    ++ "\nFamily: " ++ c.family ++ "\n\nServices:\n"
    ++ ((st.services.filter (fun sv => sv.customer_id == c.id)).map serviceBlock).foldl
        (fun a b => a ++ b) ""

/-- Handler `get_customer_services` (src/app.py lines 155-177): looks the
id up and returns the listing, or the not-found message.  It never
mutates the store. -/
def get_customer_services (st : Store) (customer_id : String) : Option String × Store :=
  match lookupCustomer st customer_id with
  | some c => (some (servicesListing st c), st)
  | none => (some notFoundMsg, st)

/-- One RPC request against the service, with `add` carrying the date
`datetime.now().date()` evaluated during the call. -/
inductive Op where
  | add (today : Date)
      (name family father_name national_id shenasname_id birth_date address : String)
  | getC (customer_id : String)
  | create (customer_id phone_number service_name : String)
  | getS (customer_id : String)

/-- The store left behind by one request (for a request that raises, the
session is abandoned without commit, so the store is unchanged). -/
def applyOp (st : Store) : Op → Store
  | .add t n f fa ni si bd a => (add_customer st t n f fa ni si bd a).2
  | .getC s => (get_customer st s).2
  | .create cid pn sn => (create_service st cid pn sn).2
  | .getS s => (get_customer_services st s).2

/-- The store after serving a sequence of requests from a fresh database. -/
def run (ops : List Op) : Store :=
  ops.foldl applyOp emptyStore

/-- A store is reachable when some request sequence produces it. -/
def Reachable (st : Store) : Prop :=
  ∃ ops : List Op, run ops = st

/-- Number of Service rows referencing customer id `k`. -/
def servicesFor (st : Store) (k : Nat) : Nat :=
  (st.services.filter (fun sv => sv.customer_id == k)).length

/-- Store invariant maintained by every handler: customer primary keys
are distinct and below the autoincrement counter, service foreign keys
reference assigned keys, every denormalized counter equals the number of
Service rows referencing its customer, and no counter exceeds 10. -/
def Inv (st : Store) : Prop :=
  (st.customers.map Customer.id).Nodup
    ∧ (∀ c ∈ st.customers, c.id < st.nextCustomerId)
    ∧ (∀ sv ∈ st.services, sv.customer_id < st.nextCustomerId)
    ∧ (∀ c ∈ st.customers, c.services_count = servicesFor st c.id)
    ∧ (∀ c ∈ st.customers, c.services_count ≤ 10)

/-- The 18th-birthday cutoff of birth date `bd` falls on `today` or
earlier: the 18th birthday's year is past, or it is this year and the
month/day has been reached. -/
def birthdayCutoffLE (bd today : Date) : Prop :=
  bd.year + 18 < today.year
    ∨ (bd.year + 18 = today.year
        ∧ (bd.month < today.month ∨ (bd.month = today.month ∧ bd.day ≤ today.day)))

instance (bd today : Date) : Decidable (birthdayCutoffLE bd today) := by
  unfold birthdayCutoffLE; infer_instance

/-- The calendar day after `d` (Gregorian). -/
def nextDay (d : Date) : Date :=
  if d.day < daysInMonth d.year d.month then ⟨d.year, d.month, d.day + 1⟩
  else if d.month < 12 then ⟨d.year, d.month + 1, 1⟩
  else ⟨d.year + 1, 1, 1⟩

/-- The result of `i` successive `create_service` calls with the same
arguments. -/
def createN (st : Store) (customer_id phone_number service_name : String) : Nat → Store
  | 0 => st
  | i + 1 => (create_service (createN st customer_id phone_number service_name i)
      customer_id phone_number service_name).2

/-! ### Supporting lemmas -/

theorem bumpCount_id (k : Nat) (c : Customer) : (bumpCount k c).id = c.id := by
  unfold bumpCount; split <;> rfl

theorem bumpCount_count (k : Nat) (c : Customer) :
    (bumpCount k c).services_count
      = c.services_count + (if c.id = k then 1 else 0) := by
  unfold bumpCount; split <;> simp

theorem find?_id_map_bumpCount (k j : Nat) (l : List Customer) :
    (l.map (bumpCount k)).find? (fun c => c.id == j)
      = (l.find? (fun c => c.id == j)).map (bumpCount k) := by
  rw [List.find?_map]
  have hfun : ((fun c : Customer => c.id == j) ∘ bumpCount k) = fun c => c.id == j := by
    funext c; simp [Function.comp, bumpCount_id]
  rw [hfun]

theorem map_id_map_bumpCount (k : Nat) (l : List Customer) :
    (l.map (bumpCount k)).map Customer.id = l.map Customer.id := by
  rw [List.map_map]
  have hfun : (Customer.id ∘ bumpCount k) = Customer.id := by
    funext c; simp [Function.comp, bumpCount_id]
  rw [hfun]

theorem find?_append_singleton (p : Customer → Bool) (l : List Customer) (x : Customer)
    (h : ∀ y ∈ l, p y = false) :
    (l ++ [x]).find? p = if p x then some x else none := by
  rw [List.find?_append]
  have hnone : l.find? p = none := by
    rw [List.find?_eq_none]
    intro y hy
    simp [h y hy]
  rw [hnone]
  cases hx : p x <;> simp [List.find?, hx]

theorem length_filter_append_singleton {α : Type} (p : α → Bool) (l : List α) (x : α) :
    ((l ++ [x]).filter p).length
      = (l.filter p).length + (if p x then 1 else 0) := by
  rw [List.filter_append, List.length_append]
  cases hx : p x <;> simp [List.filter, hx]

/-- A successful lookup decomposes into the converted id and the row
search, and the found row carries the looked-up id. -/
theorem lookupCustomer_some_elim {st : Store} {s : String} {c : Customer}
    (h : lookupCustomer st s = some c) :
    ∃ k, idOfText s = some k
      ∧ st.customers.find? (fun x => x.id == k) = some c ∧ c.id = k := by
  unfold lookupCustomer at h
  cases hid : idOfText s with
  | none => rw [hid] at h; exact absurd h (by simp)
  | some k =>
    rw [hid] at h
    exact ⟨k, rfl, h, by simpa using List.find?_some h⟩

theorem lookupCustomer_some_mem {st : Store} {s : String} {c : Customer}
    (h : lookupCustomer st s = some c) : c ∈ st.customers := by
  obtain ⟨k, _, hfind, _⟩ := lookupCustomer_some_elim h
  exact List.mem_of_find?_eq_some hfind

/-! ### Case equations of the handlers -/

theorem add_customer_eq_of_parse_fail {s : String} (hp : parseDate s = none)
    (st : Store) (today : Date) (n f fa ni si a : String) :
    add_customer st today n f fa ni si s a = (none, st) := by
  unfold add_customer; rw [hp]

theorem add_customer_eq_of_underage {s : String} {bd : Date}
    (hp : parseDate s = some bd) {today : Date} (hage : computeAge today bd < 18)
    (st : Store) (n f fa ni si a : String) :
    add_customer st today n f fa ni si s a = (some ageMsg, st) := by
  unfold add_customer; rw [hp]; simp only [if_pos hage]

theorem add_customer_eq_of_adult {s : String} {bd : Date}
    (hp : parseDate s = some bd) {today : Date} (hage : ¬ computeAge today bd < 18)
    (st : Store) (n f fa ni si a : String) :
    add_customer st today n f fa ni si s a =
      (some "Customer added successfully.",
        { st with
            customers := st.customers ++ [⟨st.nextCustomerId, n, f, fa, ni, si, bd, a, 0⟩],
            nextCustomerId := st.nextCustomerId + 1 }) := by
  unfold add_customer; rw [hp]; simp only [if_neg hage]

theorem get_customer_eq_of_found {st : Store} {s : String} {c : Customer}
    (h : lookupCustomer st s = some c) :
    get_customer st s = (some (customerBlock c), st) := by
  unfold get_customer; rw [h]

theorem get_customer_eq_of_missing {st : Store} {s : String}
    (h : lookupCustomer st s = none) :
    get_customer st s = (some notFoundMsg, st) := by
  unfold get_customer; rw [h]

theorem get_customer_services_eq_of_found {st : Store} {s : String} {c : Customer}
    (h : lookupCustomer st s = some c) :
    get_customer_services st s = (some (servicesListing st c), st) := by
  unfold get_customer_services; rw [h]

theorem get_customer_services_eq_of_missing {st : Store} {s : String}
    (h : lookupCustomer st s = none) :
    get_customer_services st s = (some notFoundMsg, st) := by
  unfold get_customer_services; rw [h]

theorem create_service_eq_of_missing {st : Store} {s : String}
    (h : lookupCustomer st s = none) (pn sn : String) :
    create_service st s pn sn = (some notFoundMsg, st) := by
  unfold create_service; rw [h]

theorem create_service_eq_of_full {st : Store} {s : String} {c : Customer}
    (h : lookupCustomer st s = some c) (hge : c.services_count ≥ 10) (pn sn : String) :
    create_service st s pn sn = (some maxMsg, st) := by
  unfold create_service; rw [h]; simp only [if_pos hge]

theorem create_service_eq_of_room {st : Store} {s : String} {c : Customer}
    (h : lookupCustomer st s = some c) (hlt : c.services_count < 10) (pn sn : String) :
    create_service st s pn sn =
      (some "Service created successfully.",
        { st with
            services := st.services ++ [⟨st.nextServiceId, sn, pn, c.id⟩],
            customers := st.customers.map (bumpCount c.id),
            nextServiceId := st.nextServiceId + 1 }) := by
  unfold create_service; rw [h]; simp only [if_neg (not_le.mpr hlt)]

/-- Neither read-only handler changes the store. -/
theorem get_handlers_preserve_store (st : Store) (s : String) :
    (get_customer st s).2 = st ∧ (get_customer_services st s).2 = st := by
  constructor
  · unfold get_customer
    cases lookupCustomer st s <;> rfl
  · unfold get_customer_services
    cases lookupCustomer st s <;> rfl

/-- After a successful `create_service`, looking the same id up again
finds the same row with its counter incremented by one. -/
theorem lookupCustomer_after_create {st : Store} {s : String} {c : Customer}
    (h : lookupCustomer st s = some c) (hlt : c.services_count < 10) (pn sn : String) :
    lookupCustomer (create_service st s pn sn).2 s
      = some { c with services_count := c.services_count + 1 } := by
  obtain ⟨k, hk, hfind, hid⟩ := lookupCustomer_some_elim h
  rw [create_service_eq_of_room h hlt pn sn]
  unfold lookupCustomer
  rw [hk]
  show (st.customers.map (bumpCount c.id)).find? (fun x => x.id == k) = _
  rw [find?_id_map_bumpCount, hfind]
  simp [bumpCount, hid]

/-! ### The store invariant is maintained by every handler -/

theorem inv_preserved_add (st : Store) (today : Date) (n f fa ni si s a : String)
    (hInv : Inv st) : Inv (add_customer st today n f fa ni si s a).2 := by
  cases hp : parseDate s with
  | none => rw [add_customer_eq_of_parse_fail hp]; exact hInv
  | some bd =>
    by_cases hage : computeAge today bd < 18
    · rw [add_customer_eq_of_underage hp hage]; exact hInv
    · rw [add_customer_eq_of_adult hp hage]
      obtain ⟨hnd, hcb, hsb, hcnt, hle⟩ := hInv
      unfold Inv
      dsimp only
      refine ⟨?_, ?_, ?_, ?_, ?_⟩
      · rw [List.map_append, List.nodup_append]
        refine ⟨hnd, by simp, ?_⟩
        intro x hx hx'
        obtain ⟨c, hc, hcx⟩ := List.mem_map.mp hx
        simp only [List.map_cons, List.map_nil, List.mem_singleton] at hx'
        have := hcb c hc
        omega
      · intro c hc
        rcases List.mem_append.mp hc with h1 | h1
        · exact Nat.lt_succ_of_lt (hcb c h1)
        · simp only [List.mem_singleton] at h1
          subst h1
          exact Nat.lt_succ_self _
      · intro sv hsv
        exact Nat.lt_succ_of_lt (hsb sv hsv)
      · intro c hc
        rcases List.mem_append.mp hc with h1 | h1
        · exact hcnt c h1
        · simp only [List.mem_singleton] at h1
          subst h1
          show 0 = servicesFor st st.nextCustomerId
          unfold servicesFor
          have hnil : st.services.filter (fun sv => sv.customer_id == st.nextCustomerId) = [] := by
            rw [List.filter_eq_nil_iff]
            intro sv hsv
            have := hsb sv hsv
            simp only [beq_iff_eq]
            omega
          rw [hnil]
          rfl
      · intro c hc
        rcases List.mem_append.mp hc with h1 | h1
        · exact hle c h1
        · simp only [List.mem_singleton] at h1
          subst h1
          exact Nat.zero_le _

theorem inv_preserved_create (st : Store) (s pn sn : String) (hInv : Inv st) :
    Inv (create_service st s pn sn).2 := by
  cases hl : lookupCustomer st s with
  | none => rw [create_service_eq_of_missing hl]; exact hInv
  | some c =>
    by_cases hge : c.services_count ≥ 10
    · rw [create_service_eq_of_full hl hge]; exact hInv
    · have hlt : c.services_count < 10 := not_le.mp hge
      rw [create_service_eq_of_room hl hlt]
      have hmem : c ∈ st.customers := lookupCustomer_some_mem hl
      obtain ⟨hnd, hcb, hsb, hcnt, hle⟩ := hInv
      unfold Inv
      dsimp only
      refine ⟨?_, ?_, ?_, ?_, ?_⟩
      · rw [map_id_map_bumpCount]; exact hnd
      · intro x hx
        obtain ⟨y, hy, rfl⟩ := List.mem_map.mp hx
        rw [bumpCount_id]
        exact hcb y hy
      · intro sv hsv
        rcases List.mem_append.mp hsv with h1 | h1
        · exact hsb sv h1
        · simp only [List.mem_singleton] at h1
          subst h1
          exact hcb c hmem
      · intro x hx
        obtain ⟨y, hy, rfl⟩ := List.mem_map.mp hx
        rw [bumpCount_count]
        show _ = servicesFor
          { st with
              services := st.services ++ [⟨st.nextServiceId, sn, pn, c.id⟩],
              customers := st.customers.map (bumpCount c.id),
              nextServiceId := st.nextServiceId + 1 } (bumpCount c.id y).id
        unfold servicesFor
        dsimp only
        rw [bumpCount_id, length_filter_append_singleton]
        have hbase := hcnt y hy
        unfold servicesFor at hbase
        rw [← hbase]
        by_cases h : y.id = c.id
        · rw [if_pos h, if_pos (by simp [h])]
        · rw [if_neg h, if_neg (by simp; exact fun hh => h hh.symm)]
      · intro x hx
        obtain ⟨y, hy, rfl⟩ := List.mem_map.mp hx
        rw [bumpCount_count]
        by_cases h : y.id = c.id
        · have hyc : y = c := List.inj_on_of_nodup_map hnd hy hmem h
          rw [if_pos h, hyc]
          omega
        · rw [if_neg h]
          simpa using hle y hy

theorem inv_preserved_applyOp (st : Store) (op : Op) (hInv : Inv st) :
    Inv (applyOp st op) := by
  cases op with
  | add t n f fa ni si bd a => exact inv_preserved_add st t n f fa ni si bd a hInv
  | getC s => rw [show applyOp st (.getC s) = (get_customer st s).2 from rfl,
      (get_handlers_preserve_store st s).1]; exact hInv
  | create cid pn sn => exact inv_preserved_create st cid pn sn hInv
  | getS s => rw [show applyOp st (.getS s) = (get_customer_services st s).2 from rfl,
      (get_handlers_preserve_store st s).2]; exact hInv

theorem inv_emptyStore : Inv emptyStore := by
  unfold Inv emptyStore servicesFor
  refine ⟨List.nodup_nil, ?_, ?_, ?_, ?_⟩ <;> simp

theorem inv_foldl (ops : List Op) : ∀ st : Store, Inv st → Inv (ops.foldl applyOp st) := by
  induction ops with
  | nil => intro st h; exact h
  | cons op rest ih =>
    intro st h
    exact ih (applyOp st op) (inv_preserved_applyOp st op h)

/-- Every reachable store satisfies the invariant. -/
theorem reachable_inv {st : Store} (h : Reachable st) : Inv st := by
  obtain ⟨ops, rfl⟩ := h
  exact inv_foldl ops emptyStore inv_emptyStore

theorem reachable_applyOp {st : Store} (h : Reachable st) (op : Op) :
    Reachable (applyOp st op) := by
  obtain ⟨ops, rfl⟩ := h
  exact ⟨ops ++ [op], by unfold run; rw [List.foldl_append]; rfl⟩

theorem reachable_createN {st : Store} (h : Reachable st) (s pn sn : String) (i : Nat) :
    Reachable (createN st s pn sn i) := by
  induction i with
  | zero => exact h
  | succ i ih => exact reachable_applyOp ih (.create s pn sn)

/-- The computed age is at least 18 exactly when the 18th-birthday
cutoff falls on the current date or earlier. -/
theorem computeAge_ge_18_iff (today bd : Date) :
    18 ≤ computeAge today bd ↔ birthdayCutoffLE bd today := by
  unfold computeAge birthdayCutoffLE
  split <;> omega

/-- Iterating `create_service` while the counter stays within the limit
keeps finding the same row, its counter incremented once per call. -/
theorem lookupCustomer_createN {st : Store} {s : String} {c : Customer}
    (h : lookupCustomer st s = some c) (pn sn : String) :
    ∀ i : Nat, c.services_count + i ≤ 10 →
      lookupCustomer (createN st s pn sn i) s
        = some { c with services_count := c.services_count + i } := by
  intro i
  induction i with
  | zero => intro _; exact h
  | succ i ih =>
    intro hle
    have hstep := ih (by omega)
    have hlt : ({ c with services_count := c.services_count + i } : Customer).services_count < 10 := by
      show c.services_count + i < 10
      omega
    exact lookupCustomer_after_create hstep hlt pn sn

/-! ### The claims -/

/-- C1: `add_customer` succeeds exactly when the calendar-aware age on
the current date is at least 18.  For every parsed birth date whose
18th-birthday cutoff is today or earlier the customer is inserted and the
success message returned; for every birth date past the cutoff the
age-rejection message is returned (the computed age being below 18); and
for a birth date exactly one day after the cutoff — the 18th birthday
falling on tomorrow — the computed age is exactly 17. -/
theorem add_customer_age_gate (st : Store) (today bd : Date)
    (n f fa ni si a s : String) (hparse : parseDate s = some bd) :
    (birthdayCutoffLE bd today →
        add_customer st today n f fa ni si s a =
          (some "Customer added successfully.",
            { st with
                customers := st.customers ++ [⟨st.nextCustomerId, n, f, fa, ni, si, bd, a, 0⟩],
                nextCustomerId := st.nextCustomerId + 1 }))
    ∧ (¬ birthdayCutoffLE bd today →
        add_customer st today n f fa ni si s a = (some ageMsg, st)
          ∧ computeAge today bd < 18)
    ∧ (Date.mk (bd.year + 18) bd.month bd.day = nextDay today →
        computeAge today bd = 17) := by
  refine ⟨?_, ?_, ?_⟩
  · intro hcut
    have hge := (computeAge_ge_18_iff today bd).mpr hcut
    exact add_customer_eq_of_adult hparse (by omega) st n f fa ni si a
  · intro hcut
    have hage : computeAge today bd < 18 := by
      by_contra hh
      exact hcut ((computeAge_ge_18_iff today bd).mp (by omega))
    exact ⟨add_customer_eq_of_underage hparse hage st n f fa ni si a, hage⟩
  · intro hnext
    unfold nextDay at hnext
    unfold computeAge
    by_cases h1 : today.day < daysInMonth today.year today.month
    · rw [if_pos h1] at hnext
      simp only [Date.mk.injEq] at hnext
      split <;> omega
    · rw [if_neg h1] at hnext
      by_cases h2 : today.month < 12
      · rw [if_pos h2] at hnext
        simp only [Date.mk.injEq] at hnext
        split <;> omega
      · rw [if_neg h2] at hnext
        simp only [Date.mk.injEq] at hnext
        split <;> omega

/-- Witness for C1: on 2025-10-12, a customer born 2000-01-05 (cutoff
2018-01-05, long past) is inserted into the fresh store with id 1; and a
customer born 2007-10-13 — 18th birthday exactly tomorrow — has computed
age 17 and is rejected. -/
theorem add_customer_age_gate_witness :
    add_customer emptyStore ⟨2025, 10, 12⟩ "n" "f" "fa" "nid" "sid" "2000-01-05" "addr"
        = (some "Customer added successfully.",
            ⟨[⟨1, "n", "f", "fa", "nid", "sid", ⟨2000, 1, 5⟩, "addr", 0⟩], [], 2, 1⟩)
      ∧ computeAge ⟨2025, 10, 12⟩ ⟨2007, 10, 13⟩ = 17
      ∧ add_customer emptyStore ⟨2025, 10, 12⟩ "n" "f" "fa" "nid" "sid" "2007-10-13" "addr"
          = (some ageMsg, emptyStore) :=
  ⟨(add_customer_age_gate emptyStore ⟨2025, 10, 12⟩ ⟨2000, 1, 5⟩
      "n" "f" "fa" "nid" "sid" "addr" "2000-01-05" (by decide)).1 (by decide),
   (add_customer_age_gate emptyStore ⟨2025, 10, 12⟩ ⟨2007, 10, 13⟩
      "n" "f" "fa" "nid" "sid" "addr" "2007-10-13" (by decide)).2.2 (by decide),
   ((add_customer_age_gate emptyStore ⟨2025, 10, 12⟩ ⟨2007, 10, 13⟩
      "n" "f" "fa" "nid" "sid" "addr" "2007-10-13" (by decide)).2.1 (by decide)).1⟩

/-- C10: for a well-formed birth date whose computed age is below 18,
`add_customer` returns the age-rejection message and leaves the store
untouched — no row is inserted, nothing is committed. -/
theorem add_customer_underage_frame (st : Store) (today bd : Date)
    (n f fa ni si s a : String)
    (hp : parseDate s = some bd) (hage : computeAge today bd < 18) :
    add_customer st today n f fa ni si s a = (some ageMsg, st) :=
  add_customer_eq_of_underage hp hage st n f fa ni si a

/-- Witness for C10: a customer born 2010-01-01 (age 15 on 2025-10-12)
is rejected and the fresh store stays empty. -/
theorem add_customer_underage_frame_witness :
    add_customer emptyStore ⟨2025, 10, 12⟩ "n" "f" "fa" "nid" "sid" "2010-01-01" "addr"
      = (some ageMsg, emptyStore) :=
  add_customer_underage_frame emptyStore ⟨2025, 10, 12⟩ ⟨2010, 1, 1⟩
    "n" "f" "fa" "nid" "sid" "2010-01-01" "addr" (by decide) (by decide)

set_option maxRecDepth 40000

/-- Counterexample to C2 as stated.  The date pattern accepts the
unpadded birth date string 2000-1-5, so this `add_customer` call
succeeds; but the block a subsequent `get_customer` returns renders the
stored date in padded form 2000-01-05, so the submitted birth date value
does not occur in the block exactly as given. -/
theorem get_customer_roundtrip_cex :
    (add_customer emptyStore ⟨2025, 10, 12⟩ "n" "f" "fa" "nid" "sid" "2000-1-5" "addr").1
        = some "Customer added successfully."
      ∧ ¬ List.IsInfix "2000-1-5".toList
          (((get_customer
              (add_customer emptyStore ⟨2025, 10, 12⟩ "n" "f" "fa" "nid" "sid" "2000-1-5" "addr").2
              "1").1.getD "").toList) := by
  constructor
  · decide
  · decide

/-- C2 (amended): after a successful `add_customer` on a store whose
customer keys are below the autoincrement counter, `get_customer` with
the assigned identifier returns the formatted block carrying the assigned
id, the six non-date fields exactly as submitted, and the parsed birth
date in padded ISO form (equal to the submitted string whenever that
string was already zero-padded). -/
theorem get_customer_after_add (st : Store)
    (hid : ∀ c ∈ st.customers, c.id < st.nextCustomerId)
    (today bd : Date) (n f fa ni si a s sid2 : String)
    (hparse : parseDate s = some bd)
    (hage : ¬ computeAge today bd < 18)
    (hsid : idOfText sid2 = some st.nextCustomerId) :
    (add_customer st today n f fa ni si s a).1 = some "Customer added successfully."
      ∧ get_customer (add_customer st today n f fa ni si s a).2 sid2
          = (some ("\n" ++ "id: " ++ toString st.nextCustomerId ++ "\nName: " ++ n
                ++ "\nfamily: " ++ f ++ "\nfather_name: " ++ fa ++ "\nnational_id: " ++ ni
                ++ "\nshenasname_id: " ++ si ++ "\nbirth_date: " ++ dateStr bd
                ++ "\nAddress: " ++ a ++ "\n\n"),
              (add_customer st today n f fa ni si s a).2) := by
  have hadd := add_customer_eq_of_adult hparse hage st n f fa ni si a
  refine ⟨by rw [hadd], ?_⟩
  rw [hadd]
  have hlook : lookupCustomer
      { st with
          customers := st.customers ++ [⟨st.nextCustomerId, n, f, fa, ni, si, bd, a, 0⟩],
          nextCustomerId := st.nextCustomerId + 1 } sid2
      = some ⟨st.nextCustomerId, n, f, fa, ni, si, bd, a, 0⟩ := by
    unfold lookupCustomer
    rw [hsid]
    show (st.customers ++ [(⟨st.nextCustomerId, n, f, fa, ni, si, bd, a, 0⟩ : Customer)]).find?
        (fun x => x.id == st.nextCustomerId) = _
    rw [find?_append_singleton _ _ _ ?_]
    · simp
    · intro y hy
      simp only [beq_eq_false_iff_ne, ne_eq]
      exact Nat.ne_of_lt (hid y hy)
  rw [get_customer_eq_of_found hlook]
  rfl

/-- Witness for C2 (amended): the zero-padded submission 2000-01-05
round-trips exactly, together with the other six fields and id 1. -/
theorem get_customer_after_add_witness :
    (add_customer emptyStore ⟨2025, 10, 12⟩ "n" "f" "fa" "nid" "sid" "2000-01-05" "addr").1
        = some "Customer added successfully."
      ∧ get_customer
          (add_customer emptyStore ⟨2025, 10, 12⟩ "n" "f" "fa" "nid" "sid" "2000-01-05" "addr").2
          "1"
        = (some "\nid: 1\nName: n\nfamily: f\nfather_name: fa\nnational_id: nid\nshenasname_id: sid\nbirth_date: 2000-01-05\nAddress: addr\n\n",
            (add_customer emptyStore ⟨2025, 10, 12⟩ "n" "f" "fa" "nid" "sid" "2000-01-05" "addr").2) :=
  get_customer_after_add emptyStore (by decide) ⟨2025, 10, 12⟩ ⟨2000, 1, 5⟩
    "n" "f" "fa" "nid" "sid" "addr" "2000-01-05" "1" (by decide) (by decide) (by decide)

/-- C3: `create_service` checks its preconditions in a fixed order.  With
no matching customer it returns the not-found message whatever the
counters hold; with a matching customer at the limit it returns the
maximum-reached message; and only when both checks pass does it, in one
returned state, append the Service row referencing that customer and
increment exactly that customer's counter, returning the success
message. -/
theorem create_service_check_order (st : Store) (s pn sn : String) :
    (lookupCustomer st s = none →
        create_service st s pn sn = (some notFoundMsg, st))
    ∧ (∀ c : Customer, lookupCustomer st s = some c → c.services_count ≥ 10 →
        create_service st s pn sn = (some maxMsg, st))
    ∧ (∀ c : Customer, lookupCustomer st s = some c → c.services_count < 10 →
        create_service st s pn sn =
          (some "Service created successfully.",
            { st with
                services := st.services ++ [⟨st.nextServiceId, sn, pn, c.id⟩],
                customers := st.customers.map (bumpCount c.id),
                nextServiceId := st.nextServiceId + 1 })) :=
  ⟨fun h => create_service_eq_of_missing h pn sn,
   fun _ h hge => create_service_eq_of_full h hge pn sn,
   fun _ h hlt => create_service_eq_of_room h hlt pn sn⟩

/-- Witness for C3: the missing-id, at-limit, and success branches,
each on a concrete store. -/
theorem create_service_check_order_witness :
    create_service emptyStore "1" "p" "sv" = (some notFoundMsg, emptyStore)
      ∧ create_service
          (⟨[⟨1, "n", "f", "fa", "ni", "si", ⟨2000, 1, 5⟩, "a", 10⟩], [], 2, 1⟩ : Store)
          "1" "p" "sv"
        = (some maxMsg, ⟨[⟨1, "n", "f", "fa", "ni", "si", ⟨2000, 1, 5⟩, "a", 10⟩], [], 2, 1⟩)
      ∧ create_service
          (⟨[⟨1, "n", "f", "fa", "ni", "si", ⟨2000, 1, 5⟩, "a", 0⟩], [], 2, 1⟩ : Store)
          "1" "p" "sv"
        = (some "Service created successfully.",
            ⟨[⟨1, "n", "f", "fa", "ni", "si", ⟨2000, 1, 5⟩, "a", 1⟩], [⟨1, "sv", "p", 1⟩], 2, 2⟩) :=
  ⟨(create_service_check_order emptyStore "1" "p" "sv").1 (by decide),
   (create_service_check_order
      (⟨[⟨1, "n", "f", "fa", "ni", "si", ⟨2000, 1, 5⟩, "a", 10⟩], [], 2, 1⟩ : Store)
      "1" "p" "sv").2.1
     ⟨1, "n", "f", "fa", "ni", "si", ⟨2000, 1, 5⟩, "a", 10⟩ (by decide) (by decide),
   (create_service_check_order
      (⟨[⟨1, "n", "f", "fa", "ni", "si", ⟨2000, 1, 5⟩, "a", 0⟩], [], 2, 1⟩ : Store)
      "1" "p" "sv").2.2
     ⟨1, "n", "f", "fa", "ni", "si", ⟨2000, 1, 5⟩, "a", 0⟩ (by decide) (by decide)⟩

/-- C6: when no customer row matches the given id, `get_customer` and
`get_customer_services` both return exactly the not-found string and both
leave the entire store unchanged. -/
theorem lookups_not_found_frame (st : Store) (s : String)
    (h : lookupCustomer st s = none) :
    get_customer st s = (some notFoundMsg, st)
      ∧ get_customer_services st s = (some notFoundMsg, st) :=
  ⟨get_customer_eq_of_missing h, get_customer_services_eq_of_missing h⟩

/-- Witness for C6: id 2 is absent from a store holding only customer 1;
both lookups answer the not-found string and return the store intact. -/
theorem lookups_not_found_frame_witness :
    get_customer (⟨[⟨1, "n", "f", "fa", "ni", "si", ⟨2000, 1, 5⟩, "a", 0⟩], [], 2, 1⟩ : Store) "2"
        = (some notFoundMsg, ⟨[⟨1, "n", "f", "fa", "ni", "si", ⟨2000, 1, 5⟩, "a", 0⟩], [], 2, 1⟩)
      ∧ get_customer_services
          (⟨[⟨1, "n", "f", "fa", "ni", "si", ⟨2000, 1, 5⟩, "a", 0⟩], [], 2, 1⟩ : Store) "2"
        = (some notFoundMsg, ⟨[⟨1, "n", "f", "fa", "ni", "si", ⟨2000, 1, 5⟩, "a", 0⟩], [], 2, 1⟩) :=
  lookups_not_found_frame
    (⟨[⟨1, "n", "f", "fa", "ni", "si", ⟨2000, 1, 5⟩, "a", 0⟩], [], 2, 1⟩ : Store) "2" (by decide)

/-- C7: `create_service` on an id matching no customer returns the
not-found message and leaves the store unchanged — no Service row is
created and no counter is modified. -/
theorem create_service_missing_frame (st : Store) (s pn sn : String)
    (h : lookupCustomer st s = none) :
    create_service st s pn sn = (some notFoundMsg, st) :=
  create_service_eq_of_missing h pn sn

/-- Witness for C7: creating a service for absent id 7 on a one-customer
store reports not-found and changes nothing. -/
theorem create_service_missing_frame_witness :
    create_service (⟨[⟨1, "n", "f", "fa", "ni", "si", ⟨2000, 1, 5⟩, "a", 0⟩], [], 2, 1⟩ : Store)
        "7" "p" "sv"
      = (some notFoundMsg, ⟨[⟨1, "n", "f", "fa", "ni", "si", ⟨2000, 1, 5⟩, "a", 0⟩], [], 2, 1⟩) :=
  create_service_missing_frame
    (⟨[⟨1, "n", "f", "fa", "ni", "si", ⟨2000, 1, 5⟩, "a", 0⟩], [], 2, 1⟩ : Store)
    "7" "p" "sv" (by decide)

/-- Counterexample to C9 as stated.  A customer id of invalid numeric
form does not make the lookup handlers raise: the store converts no
integer from the text, the query matches no row, and both handlers return
the not-found result string. -/
theorem malformed_id_returns_string :
    idOfText "abc" = none
      ∧ get_customer emptyStore "abc" = (some notFoundMsg, emptyStore)
      ∧ get_customer_services emptyStore "abc" = (some notFoundMsg, emptyStore) := by
  refine ⟨by decide, by decide, by decide⟩

/-- C9 (amended): a birth date string not matching the fixed format makes
`add_customer` raise an exception that propagates untranslated (result
`none`, no commit), while a customer id of invalid numeric form makes the
lookup handlers return the not-found result string, indistinguishable
from a missing id. -/
theorem malformed_inputs (st : Store) (today : Date)
    (n f fa ni si a s cs : String)
    (hbad : parseDate s = none) (hcs : idOfText cs = none) :
    add_customer st today n f fa ni si s a = (none, st)
      ∧ get_customer st cs = (some notFoundMsg, st)
      ∧ get_customer_services st cs = (some notFoundMsg, st) := by
  have hl : lookupCustomer st cs = none := by
    unfold lookupCustomer
    rw [hcs]
  exact ⟨add_customer_eq_of_parse_fail hbad st today n f fa ni si a,
    get_customer_eq_of_missing hl, get_customer_services_eq_of_missing hl⟩

/-- Witness for C9 (amended): month 13 fails the date pattern and makes
`add_customer` raise; the non-numeric id text makes both lookups answer
the not-found string. -/
theorem malformed_inputs_witness :
    add_customer emptyStore ⟨2025, 10, 12⟩ "n" "f" "fa" "ni" "si" "2000-13-01" "a"
        = (none, emptyStore)
      ∧ get_customer emptyStore "x1" = (some notFoundMsg, emptyStore)
      ∧ get_customer_services emptyStore "x1" = (some notFoundMsg, emptyStore) :=
  malformed_inputs emptyStore ⟨2025, 10, 12⟩ "n" "f" "fa" "ni" "si" "a" "2000-13-01" "x1"
    (by decide) (by decide)

/-- C8: `add_customer` performs no uniqueness check on the national
identifier.  Two successive adult registrations with the same national id
both succeed, and the store then holds two Customer rows with distinct
primary keys and the same national id. -/
theorem add_customer_no_unique_national_id (st : Store) (t1 t2 bd1 bd2 : Date)
    (n1 f1 fa1 si1 a1 n2 f2 fa2 si2 a2 ni s1 s2 : String)
    (hp1 : parseDate s1 = some bd1) (hp2 : parseDate s2 = some bd2)
    (ha1 : ¬ computeAge t1 bd1 < 18) (ha2 : ¬ computeAge t2 bd2 < 18) :
    (add_customer st t1 n1 f1 fa1 ni si1 s1 a1).1 = some "Customer added successfully."
      ∧ (add_customer (add_customer st t1 n1 f1 fa1 ni si1 s1 a1).2
          t2 n2 f2 fa2 ni si2 s2 a2).1 = some "Customer added successfully."
      ∧ (add_customer (add_customer st t1 n1 f1 fa1 ni si1 s1 a1).2
          t2 n2 f2 fa2 ni si2 s2 a2).2.customers
          = st.customers
              ++ [⟨st.nextCustomerId, n1, f1, fa1, ni, si1, bd1, a1, 0⟩,
                  ⟨st.nextCustomerId + 1, n2, f2, fa2, ni, si2, bd2, a2, 0⟩]
      ∧ st.nextCustomerId ≠ st.nextCustomerId + 1 := by
  have h1 := add_customer_eq_of_adult hp1 ha1 st n1 f1 fa1 ni si1 a1
  refine ⟨by rw [h1], ?_, ?_, by omega⟩
  · rw [h1, add_customer_eq_of_adult hp2 ha2 _ n2 f2 fa2 ni si2 a2]
  · rw [h1, add_customer_eq_of_adult hp2 ha2 _ n2 f2 fa2 ni si2 a2]
    dsimp only
    rw [List.append_assoc]
    rfl

/-- Witness for C8: registering twice with national id 123 fills the
fresh store with rows 1 and 2 both carrying national id 123. -/
theorem add_customer_no_unique_national_id_witness :
    (add_customer emptyStore ⟨2025, 10, 12⟩ "n1" "f1" "fa1" "123" "si1" "2000-01-05" "a1").1
        = some "Customer added successfully."
      ∧ (add_customer
          (add_customer emptyStore ⟨2025, 10, 12⟩ "n1" "f1" "fa1" "123" "si1" "2000-01-05" "a1").2
          ⟨2025, 10, 12⟩ "n2" "f2" "fa2" "123" "si2" "1999-06-30" "a2").1
        = some "Customer added successfully."
      ∧ (add_customer
          (add_customer emptyStore ⟨2025, 10, 12⟩ "n1" "f1" "fa1" "123" "si1" "2000-01-05" "a1").2
          ⟨2025, 10, 12⟩ "n2" "f2" "fa2" "123" "si2" "1999-06-30" "a2").2.customers
        = [⟨1, "n1", "f1", "fa1", "123", "si1", ⟨2000, 1, 5⟩, "a1", 0⟩,
           ⟨2, "n2", "f2", "fa2", "123", "si2", ⟨1999, 6, 30⟩, "a2", 0⟩]
      ∧ (1 : Nat) ≠ 2 :=
  add_customer_no_unique_national_id emptyStore ⟨2025, 10, 12⟩ ⟨2025, 10, 12⟩
    ⟨2000, 1, 5⟩ ⟨1999, 6, 30⟩ "n1" "f1" "fa1" "si1" "a1" "n2" "f2" "fa2" "si2" "a2"
    "123" "2000-01-05" "1999-06-30" (by decide) (by decide) (by decide) (by decide)

/-- C4: from a customer whose counter is 0, the first ten
`create_service` calls all return the success message, the eleventh
returns the maximum-reached message and appends no Service row; and in
every reachable store each customer's counter is at most 10. -/
theorem services_capped (st : Store) (s pn sn : String) (c : Customer)
    (hlook : lookupCustomer st s = some c) (h0 : c.services_count = 0) :
    (∀ i : Nat, i < 10 →
        (create_service (createN st s pn sn i) s pn sn).1
          = some "Service created successfully.")
      ∧ (create_service (createN st s pn sn 10) s pn sn).1 = some maxMsg
      ∧ (create_service (createN st s pn sn 10) s pn sn).2.services
          = (createN st s pn sn 10).services
      ∧ (∀ st2 : Store, Reachable st2 → ∀ c2 ∈ st2.customers, c2.services_count ≤ 10) := by
  have hiter : ∀ i : Nat, i ≤ 10 →
      lookupCustomer (createN st s pn sn i) s
        = some { c with services_count := i } := by
    intro i hi
    have := lookupCustomer_createN hlook pn sn i (by omega)
    rw [h0] at this
    simpa using this
  refine ⟨?_, ?_, ?_, ?_⟩
  · intro i hi
    rw [create_service_eq_of_room (hiter i (by omega)) (by simpa using hi) pn sn]
  · rw [create_service_eq_of_full (hiter 10 (by omega)) (by simp) pn sn]
  · rw [create_service_eq_of_full (hiter 10 (by omega)) (by simp) pn sn]
  · intro st2 hr c2 hc2
    exact (reachable_inv hr).2.2.2.2 c2 hc2

/-- Witness for C4: on a store holding the single fresh customer 1, the
fourth call (after three successes) succeeds, and the eleventh call
reports the limit while the services table keeps its ten rows. -/
theorem services_capped_witness :
    (create_service
        (createN (⟨[⟨1, "n", "f", "fa", "ni", "si", ⟨2000, 1, 5⟩, "a", 0⟩], [], 2, 1⟩ : Store)
          "1" "p" "sv" 3) "1" "p" "sv").1
        = some "Service created successfully."
      ∧ (create_service
          (createN (⟨[⟨1, "n", "f", "fa", "ni", "si", ⟨2000, 1, 5⟩, "a", 0⟩], [], 2, 1⟩ : Store)
            "1" "p" "sv" 10) "1" "p" "sv").1 = some maxMsg
      ∧ (create_service
          (createN (⟨[⟨1, "n", "f", "fa", "ni", "si", ⟨2000, 1, 5⟩, "a", 0⟩], [], 2, 1⟩ : Store)
            "1" "p" "sv" 10) "1" "p" "sv").2.services
          = (createN (⟨[⟨1, "n", "f", "fa", "ni", "si", ⟨2000, 1, 5⟩, "a", 0⟩], [], 2, 1⟩ : Store)
              "1" "p" "sv" 10).services :=
  ⟨(services_capped (⟨[⟨1, "n", "f", "fa", "ni", "si", ⟨2000, 1, 5⟩, "a", 0⟩], [], 2, 1⟩ : Store)
      "1" "p" "sv" ⟨1, "n", "f", "fa", "ni", "si", ⟨2000, 1, 5⟩, "a", 0⟩
      (by decide) (by decide)).1 3 (by decide),
   (services_capped (⟨[⟨1, "n", "f", "fa", "ni", "si", ⟨2000, 1, 5⟩, "a", 0⟩], [], 2, 1⟩ : Store)
      "1" "p" "sv" ⟨1, "n", "f", "fa", "ni", "si", ⟨2000, 1, 5⟩, "a", 0⟩
      (by decide) (by decide)).2.1,
   (services_capped (⟨[⟨1, "n", "f", "fa", "ni", "si", ⟨2000, 1, 5⟩, "a", 0⟩], [], 2, 1⟩ : Store)
      "1" "p" "sv" ⟨1, "n", "f", "fa", "ni", "si", ⟨2000, 1, 5⟩, "a", 0⟩
      (by decide) (by decide)).2.2.1⟩

/-- C5: the denormalized counter is faithful.  A newly inserted customer
row starts with counter 0; a successful `create_service` increments the
found row's counter by exactly one; no request ever decrements any
customer's counter; and after N successful calls from a fresh customer
the counter equals N and equals the number of Service rows referencing
that customer. -/
theorem services_count_tracks (st : Store) :
    (∀ (today bd : Date) (n f fa ni si a s : String),
        parseDate s = some bd → ¬ computeAge today bd < 18 →
        (add_customer st today n f fa ni si s a).2.customers
          = st.customers ++ [⟨st.nextCustomerId, n, f, fa, ni, si, bd, a, 0⟩])
    ∧ (∀ (s pn sn : String) (c : Customer),
        lookupCustomer st s = some c → c.services_count < 10 →
        lookupCustomer (create_service st s pn sn).2 s
          = some { c with services_count := c.services_count + 1 })
    ∧ (∀ op : Op, ∀ c ∈ st.customers, ∃ c2 ∈ (applyOp st op).customers,
        c2.id = c.id ∧ c.services_count ≤ c2.services_count)
    ∧ (∀ (s pn sn : String) (c : Customer) (N : Nat),
        Reachable st → lookupCustomer st s = some c → c.services_count = 0 → N ≤ 10 →
        lookupCustomer (createN st s pn sn N) s = some { c with services_count := N }
          ∧ servicesFor (createN st s pn sn N) c.id = N) := by
  refine ⟨?_, ?_, ?_, ?_⟩
  · intro today bd n f fa ni si a s hp hage
    rw [add_customer_eq_of_adult hp hage st n f fa ni si a]
  · intro s pn sn c hl hlt
    exact lookupCustomer_after_create hl hlt pn sn
  · intro op c hc
    cases op with
    | add t n f fa ni si bds a =>
      show ∃ c2 ∈ (add_customer st t n f fa ni si bds a).2.customers, _
      cases hp : parseDate bds with
      | none =>
        rw [add_customer_eq_of_parse_fail hp]
        exact ⟨c, hc, rfl, le_refl _⟩
      | some bd =>
        by_cases hage : computeAge t bd < 18
        · rw [add_customer_eq_of_underage hp hage]
          exact ⟨c, hc, rfl, le_refl _⟩
        · rw [add_customer_eq_of_adult hp hage]
          exact ⟨c, List.mem_append_left _ hc, rfl, le_refl _⟩
    | getC s2 =>
      rw [show applyOp st (.getC s2) = (get_customer st s2).2 from rfl,
        (get_handlers_preserve_store st s2).1]
      exact ⟨c, hc, rfl, le_refl _⟩
    | getS s2 =>
      rw [show applyOp st (.getS s2) = (get_customer_services st s2).2 from rfl,
        (get_handlers_preserve_store st s2).2]
      exact ⟨c, hc, rfl, le_refl _⟩
    | create s2 pn sn =>
      show ∃ c2 ∈ (create_service st s2 pn sn).2.customers, _
      cases hl : lookupCustomer st s2 with
      | none =>
        rw [create_service_eq_of_missing hl]
        exact ⟨c, hc, rfl, le_refl _⟩
      | some c0 =>
        by_cases hge : c0.services_count ≥ 10
        · rw [create_service_eq_of_full hl hge]
          exact ⟨c, hc, rfl, le_refl _⟩
        · rw [create_service_eq_of_room hl (not_le.mp hge)]
          refine ⟨bumpCount c0.id c, List.mem_map_of_mem _ hc, bumpCount_id _ _, ?_⟩
          rw [bumpCount_count]
          omega
  · intro s pn sn c N hr hl h0 hN
    have h1 : lookupCustomer (createN st s pn sn N) s
        = some { c with services_count := N } := by
      have := lookupCustomer_createN hl pn sn N (by omega)
      rw [h0] at this
      simpa using this
    refine ⟨h1, ?_⟩
    have hmem := lookupCustomer_some_mem h1
    have hInv := reachable_inv (reachable_createN hr s pn sn N)
    exact (hInv.2.2.2.1 _ hmem).symm

/-- Witness for C5: on a fresh one-customer store, the first service
creation bumps the counter to 1, a create request never lowers it, and
ten successful calls leave counter 10 matching ten Service rows. -/
theorem services_count_tracks_witness :
    (add_customer emptyStore ⟨2025, 10, 12⟩ "n" "f" "fa" "ni" "si" "2000-01-05" "a").2.customers
        = [⟨1, "n", "f", "fa", "ni", "si", ⟨2000, 1, 5⟩, "a", 0⟩]
      ∧ lookupCustomer
          (create_service
            (⟨[⟨1, "n", "f", "fa", "ni", "si", ⟨2000, 1, 5⟩, "a", 0⟩], [], 2, 1⟩ : Store)
            "1" "p" "sv").2 "1"
        = some ⟨1, "n", "f", "fa", "ni", "si", ⟨2000, 1, 5⟩, "a", 1⟩
      ∧ (∃ c2 ∈ (applyOp
            (⟨[⟨1, "n", "f", "fa", "ni", "si", ⟨2000, 1, 5⟩, "a", 0⟩], [], 2, 1⟩ : Store)
            (.create "1" "p" "sv")).customers,
          c2.id = 1 ∧ 0 ≤ c2.services_count)
      ∧ lookupCustomer
          (createN (⟨[⟨1, "n", "f", "fa", "ni", "si", ⟨2000, 1, 5⟩, "a", 0⟩], [], 2, 1⟩ : Store)
            "1" "p" "sv" 10) "1"
        = some ⟨1, "n", "f", "fa", "ni", "si", ⟨2000, 1, 5⟩, "a", 10⟩
      ∧ servicesFor
          (createN (⟨[⟨1, "n", "f", "fa", "ni", "si", ⟨2000, 1, 5⟩, "a", 0⟩], [], 2, 1⟩ : Store)
            "1" "p" "sv" 10) 1 = 10 :=
  ⟨(services_count_tracks emptyStore).1 ⟨2025, 10, 12⟩ ⟨2000, 1, 5⟩
      "n" "f" "fa" "ni" "si" "a" "2000-01-05" (by decide) (by decide),
   (services_count_tracks
      (⟨[⟨1, "n", "f", "fa", "ni", "si", ⟨2000, 1, 5⟩, "a", 0⟩], [], 2, 1⟩ : Store)).2.1
     "1" "p" "sv" ⟨1, "n", "f", "fa", "ni", "si", ⟨2000, 1, 5⟩, "a", 0⟩ (by decide) (by decide),
   (services_count_tracks
      (⟨[⟨1, "n", "f", "fa", "ni", "si", ⟨2000, 1, 5⟩, "a", 0⟩], [], 2, 1⟩ : Store)).2.2.1
     (.create "1" "p" "sv") ⟨1, "n", "f", "fa", "ni", "si", ⟨2000, 1, 5⟩, "a", 0⟩ (by decide),
   ((services_count_tracks
      (⟨[⟨1, "n", "f", "fa", "ni", "si", ⟨2000, 1, 5⟩, "a", 0⟩], [], 2, 1⟩ : Store)).2.2.2
     "1" "p" "sv" ⟨1, "n", "f", "fa", "ni", "si", ⟨2000, 1, 5⟩, "a", 0⟩ 10
     ⟨[.add ⟨2025, 10, 12⟩ "n" "f" "fa" "ni" "si" "2000-01-05" "a"], rfl⟩
     (by decide) (by decide) (by decide)).1,
   ((services_count_tracks
      (⟨[⟨1, "n", "f", "fa", "ni", "si", ⟨2000, 1, 5⟩, "a", 0⟩], [], 2, 1⟩ : Store)).2.2.2
     "1" "p" "sv" ⟨1, "n", "f", "fa", "ni", "si", ⟨2000, 1, 5⟩, "a", 0⟩ 10
     ⟨[.add ⟨2025, 10, 12⟩ "n" "f" "fa" "ni" "si" "2000-01-05" "a"], rfl⟩
     (by decide) (by decide) (by decide)).2⟩

end SatelM
